import Mathlib

/-!
# Verification of the awsbraket CLI request-signing and API pipeline

A shallow embedding, in Lean 4, of the AWS SigV4 signer and the
authenticated API client of the `awsbraket` command-line tool
(`src/index.js` of the repository, the part after the API-module
separator, lines 451-641, together with `src/config.js`).

Modelling conventions:
* JavaScript strings are Lean `String`s (all strings involved are ASCII,
  so UTF-16 code units, Unicode code points and UTF-8 bytes coincide).
* Node `Buffer`s (HMAC keys and digests) are `List Nat` of byte values.
* The external crypto primitives `crypto.createHmac('sha256', k).update(m).digest()`
  and `crypto.createHash('sha256').update(s).digest()` are abstract
  parameters `hmac : Bytes → Bytes → Bytes` and `sha256 : Bytes → Bytes`;
  the `'hex'` digest encoding is modelled concretely by `hexOfBytes`.
* The clock (`getAmzDate`, line 473) is injected: functions take the
  `amzDate` string as a parameter instead of reading the system time.
* JSON values are the inductive `Json`; `JSON.stringify` is `jsonStringify`;
  JavaScript truthiness of a value is `jsTruthy` / `truthyStr`.
* The HTTP transport (`axios`) is an abstract parameter
  `transport : HttpRequest → TransportResult`; a thrown JS `Error` is an
  `Except.error` carrying the error message.
-/

namespace AwsBraket

/-- Byte strings (Node `Buffer`s): lists of byte values. -/
abbrev Bytes := List Nat

/-- The bytes of an (ASCII) string, as fed to `update` of a Node hash. -/
def strBytes (s : String) : Bytes := s.data.map Char.toNat

/-- JSON values, as passed around by the JavaScript API module. -/
inductive Json where
  | null
  | bool (b : Bool)
  | num (n : Int)
  | str (s : String)
  | arr (elems : List Json)
  | obj (fields : List (String × Json))

/-- JSON string escaping as performed by `JSON.stringify` (the characters
occurring in this development never need escaping beyond these cases). -/
def escChar (c : Char) : String :=
  if c = '"' then "\\\""
  else if c = '\\' then "\\\\"
  else if c = '\n' then "\\n"
  else if c = '\t' then "\\t"
  else if c = '\r' then "\\r"
  else String.singleton c

/-- Escape the characters of a JSON string literal. -/
def escStr (s : String) : String := String.join (s.data.map escChar)

mutual

/-- `JSON.stringify`: serialize a JSON value, object keys in insertion
order, no added whitespace (as Node produces with a single argument). -/
def jsonStringify : Json → String
  | .null => "null"
  | .bool b => cond b "true" "false"
  | .num n => toString n
  | .str s => "\"" ++ escStr s ++ "\""
  | .arr xs => "[" ++ stringifyElems xs ++ "]"
  | .obj kvs => "\x7b" ++ stringifyFields kvs ++ "\x7d"

/-- Serialize array elements, comma separated. -/
def stringifyElems : List Json → String
  | [] => ""
  | [x] => jsonStringify x
  | x :: y :: rest => jsonStringify x ++ "," ++ stringifyElems (y :: rest)

/-- Serialize object fields, comma separated, `"key":value` each. -/
def stringifyFields : List (String × Json) → String
  | [] => ""
  | [(k, v)] => "\"" ++ escStr k ++ "\":" ++ jsonStringify v
  | (k, v) :: y :: rest =>
      "\"" ++ escStr k ++ "\":" ++ jsonStringify v ++ "," ++ stringifyFields (y :: rest)

end

/-- JavaScript truthiness of a JSON value (`NaN` is not modelled; objects
and arrays are always truthy, including empty ones). -/
def jsTruthy : Json → Bool
  | .null => false
  | .bool b => b
  | .num n => n != 0
  | .str s => s != ""
  | .arr _ => true
  | .obj _ => true

/-- JavaScript truthiness of a possibly-`undefined` string
(`undefined` and `""` are falsy). -/
def truthyStr : Option String → Bool
  | none => false
  | some s => s != ""

/-- Property access `v.k` on a JSON value: defined (`some`) only when `v`
is an object with a field named `k` (first occurrence wins). -/
def getField : Json → String → Option Json
  | .obj kvs, key => (kvs.find? (fun p => p.1 == key)).map Prod.snd
  | _, _ => none

/-- Property access that is `some` only when the field exists and its
value is truthy — the shape of a JavaScript `v?.k || fallback` chain. -/
def truthyField (v : Json) (key : String) : Option Json :=
  match getField v key with
  | some w => if jsTruthy w then some w else none
  | none => none

/-- JavaScript string conversion of a value, as performed by template
interpolation: strings verbatim, numbers in decimal, arrays joined by
commas (null elements blank), objects as `[object Object]`. -/
def jsDisplay : Json → String
  | .null => "null"
  | .bool b => cond b "true" "false"
  | .num n => toString n
  | .str s => s
  | .arr xs => displayElems xs
  | .obj _ => "[object Object]"
where
  /-- `Array.prototype.toString`: elements joined by `,`,
  null elements rendered as the empty string. -/
  displayElems : List Json → String
    | [] => ""
    | [Json.null] => ""
    | [x] => jsDisplay x
    | Json.null :: y :: rest => "," ++ displayElems (y :: rest)
    | x :: y :: rest => jsDisplay x ++ "," ++ displayElems (y :: rest)

/-! ## Hex encoding and header utilities -/

/-- One hexadecimal digit, lowercase (`0`–`9`, `a`–`f`). -/
def hexDigit (n : Nat) : Char := if n < 10 then Char.ofNat (48 + n) else Char.ofNat (87 + n)

/-- Two lowercase hex digits of one byte. -/
def byteToHex (b : Nat) : String := String.mk [hexDigit (b / 16 % 16), hexDigit (b % 16)]

/-- Node's `'hex'` digest encoding: lowercase hex, two digits per byte. -/
def hexOfBytes : Bytes → String
  | [] => ""
  | b :: bs => byteToHex b ++ hexOfBytes bs

/-- Lexicographic comparison of code units — the default comparator of
JavaScript `Array.prototype.sort` on strings. -/
def jsStrLt (a b : String) : Bool := ltChars a.data b.data
where
  /-- Code-unit-wise lexicographic `<` on character lists. -/
  ltChars : List Char → List Char → Bool
    | [], [] => false
    | [], _ :: _ => true
    | _ :: _, [] => false
    | a :: as, b :: bs =>
        if a.toNat < b.toNat then true
        else if b.toNat < a.toNat then false
        else ltChars as bs

/-- Insert a string into a list sorted by `jsStrLt` (stable). -/
def insertSorted (x : String) : List String → List String
  | [] => [x]
  | y :: ys => if jsStrLt y x then y :: insertSorted x ys else x :: y :: ys

/-- `Object.keys(headers).sort()`: sort strings by the default JavaScript
comparator (insertion sort; stable, matching the spec's observable order). -/
def sortStrings : List String → List String
  | [] => []
  | x :: xs => insertSorted x (sortStrings xs)

/-- `headers[k]` lookup in a header object modelled as an association list
(first match; the default is never reached, keys being drawn from the map). -/
def lookupD : List (String × String) → String → String
  | [], _ => ""
  | (k, v) :: rest, key => if k = key then v else lookupD rest key

/-- `Array.prototype.join(sep)`: elements interleaved with the separator. -/
def joinSep (sep : String) : List String → String
  | [] => ""
  | [x] => x
  | x :: y :: rest => x ++ sep ++ joinSep sep (y :: rest)

/-! ## The Signer (`src/index.js` lines 455-511) -/

/-- `const SERVICE = 'braket'` (line 455). -/
def SERVICE : String := "braket"

/-- `sign(key, msg)` (lines 461-463): one HMAC-SHA256 application, the
primitive itself being the abstract parameter `hmac`. -/
def sign (hmac : Bytes → Bytes → Bytes) (key : Bytes) (msg : String) : Bytes :=
  hmac key (strBytes msg)

/-- `getSignatureKey(key, dateStamp, region, service)` (lines 465-471):
the four chained HMAC-SHA256 derivations of the SigV4 signing key. -/
def getSignatureKey (hmac : Bytes → Bytes → Bytes)
    (key dateStamp region service : String) : Bytes :=
  let kDate := sign hmac (strBytes ("AWS4" ++ key)) dateStamp
  let kRegion := sign hmac kDate region
  let kService := sign hmac kRegion service
  let kSigning := sign hmac kService "aws4_request"
  kSigning

/-- The parameters of `signedRequest` (line 477): the destructured
argument object. `body` is a JSON value, `Json.null` when the caller
passed `null`; `sessionToken` is `none` when `undefined`. -/
structure SignParams where
  method : String
  path : String
  body : Json
  region : String
  accessKeyId : String
  secretAccessKey : String
  sessionToken : Option String

/-- The value returned by `signedRequest` (line 510). -/
structure SignedResult where
  endpoint : String
  headers : List (String × String)
  bodyStr : String

/-- Line 483: `const bodyStr = body ? JSON.stringify(body) : ''`. -/
def sentBodyStr (body : Json) : String :=
  if jsTruthy body then jsonStringify body else ""

/-- Line 484: hex SHA-256 digest of the serialized body. -/
def contentHashOf (sha256 : Bytes → Bytes) (s : String) : String :=
  hexOfBytes (sha256 (strBytes s))

/-- Lines 486-495: the header object built by the signer — four fixed
headers, plus `x-amz-security-token` when the session token is truthy.
Keys in JavaScript insertion order. -/
def requestHeaders (host amzDate contentHash : String)
    (sessionToken : Option String) : List (String × String) :=
  [("content-type", "application/json"),
   ("host", host),
   ("x-amz-date", amzDate),
   ("x-amz-content-sha256", contentHash)]
  ++ (if truthyStr sessionToken then [("x-amz-security-token", sessionToken.getD "")] else [])

/-- Line 497: `Object.keys(headers).sort().join(';')`. -/
def signedHeadersOf (headers : List (String × String)) : String :=
  joinSep ";" (sortStrings (headers.map Prod.fst))

/-- Line 498: sorted `name:value\n` lines, concatenated. -/
def canonicalHeadersOf (headers : List (String × String)) : String :=
  String.join ((sortStrings (headers.map Prod.fst)).map
    (fun k => k ++ ":" ++ lookupD headers k ++ "\n"))

/-- Line 499: `[method, path, '', canonicalHeaders, signedHeaders, contentHash].join('\n')`. -/
def canonicalRequestOf (method path canonicalHeaders signedHeaders contentHash : String) : String :=
  joinSep "\n" [method, path, "", canonicalHeaders, signedHeaders, contentHash]

/-- Line 501: `` `${dateStamp}/${region}/${SERVICE}/aws4_request` ``. -/
def credentialScopeOf (dateStamp region : String) : String :=
  dateStamp ++ "/" ++ region ++ "/" ++ SERVICE ++ "/aws4_request"

/-- Lines 502-503: `['AWS4-HMAC-SHA256', amzDate, credentialScope, hash].join('\n')`. -/
def stringToSignOf (amzDate credentialScope hashedCanonicalRequest : String) : String :=
  joinSep "\n" ["AWS4-HMAC-SHA256", amzDate, credentialScope, hashedCanonicalRequest]

/-- `signedRequest` (lines 477-511), with the clock injected as `amzDate`
(line 480 calls `getAmzDate()`) and the crypto primitives abstract. -/
def signedRequest (hmac : Bytes → Bytes → Bytes) (sha256 : Bytes → Bytes)
    (amzDate : String) (p : SignParams) : SignedResult :=
  let host := "braket." ++ p.region ++ ".amazonaws.com"
  let endpoint := "https://" ++ host
  let dateStamp := amzDate.take 8
  let bodyStr := sentBodyStr p.body
  let contentHash := contentHashOf sha256 bodyStr
  let headers := requestHeaders host amzDate contentHash p.sessionToken
  let signedHeaders := signedHeadersOf headers
  let canonicalHeaders := canonicalHeadersOf headers
  let canonicalRequest := canonicalRequestOf p.method p.path canonicalHeaders signedHeaders contentHash
  let credentialScope := credentialScopeOf dateStamp p.region
  let stringToSign := stringToSignOf amzDate credentialScope
    (hexOfBytes (sha256 (strBytes canonicalRequest)))
  let signingKey := getSignatureKey hmac p.secretAccessKey dateStamp p.region SERVICE
  let signature := hexOfBytes (hmac signingKey (strBytes stringToSign))
  let authorization := "AWS4-HMAC-SHA256 Credential=" ++ p.accessKeyId ++ "/" ++ credentialScope
    ++ ", SignedHeaders=" ++ signedHeaders ++ ", Signature=" ++ signature
  { endpoint := endpoint ++ p.path
    headers := headers ++ [("authorization", authorization)]
    bodyStr := bodyStr }

/-! ## The Authenticated Client (`src/index.js` lines 517-559, `src/config.js`) -/

/-- The external config store (`config.js`): one optional value per key
the API module reads. `none` models `getConfig` returning `undefined`. -/
structure Config where
  region : Option String
  accessKeyId : Option String
  secretAccessKey : Option String
  sessionToken : Option String

/-- Line 518: `getConfig('region') || 'us-east-1'`. -/
def regionOf (cfg : Config) : String :=
  match cfg.region with
  | some r => if r = "" then "us-east-1" else r
  | none => "us-east-1"

/-- Line 523 inverted: both credentials truthy
(`!(!accessKeyId || !secretAccessKey)`). -/
def credsPresent (cfg : Config) : Bool :=
  truthyStr cfg.accessKeyId && truthyStr cfg.secretAccessKey

/-- The message of the error thrown on line 524. -/
def errCredsNotConfigured : String :=
  "AWS credentials not configured. Run: awsbraket config set --access-key-id <id> --secret-access-key <secret>"

/-- The argument object handed to `axios` (lines 532-538). `data` is
`none` when `bodyStr || undefined` is `undefined`; `params` carries the
query parameters, values already rendered as strings. -/
structure HttpRequest where
  method : String
  url : String
  headers : List (String × String)
  data : Option String
  params : Option (List (String × String))

/-- The shapes of an `axios` error (line 545): a response with a non-2xx
status, a request that got no response, or a setup error thrown before
the request existed. -/
inductive AxiosError where
  | httpError (status : Nat) (data : Json)
  | noResponse
  | setupError (msg : String)

/-- What the abstract transport returns: a 2xx response's parsed payload,
or one of the `axios` error shapes. -/
inductive TransportResult where
  | success (data : Json)
  | failure (e : AxiosError)

/-- `data?.message || data?.Message || JSON.stringify(data)` followed by
template interpolation (line 552): the first truthy of the two message
fields, displayed as JavaScript would, else the serialized body. -/
def apiErrMessage (data : Json) : String :=
  match truthyField data "message" with
  | some v => jsDisplay v
  | none =>
    match truthyField data "Message" with
    | some v => jsDisplay v
    | none => jsonStringify data

/-- `handleApiError` (lines 545-559), returning the message of the error
it throws (for `setupError` the original error is rethrown unchanged). -/
def handleApiError : AxiosError → String
  | .httpError status data =>
      if status = 401 ∨ status = 403 then "Authentication failed. Check your AWS credentials."
      else if status = 404 then "Resource not found."
      else if status = 429 then "Rate limit exceeded. Please wait before retrying."
      else "API Error (" ++ toString status ++ "): " ++ apiErrMessage data
  | .noResponse => "No response from AWS Braket API. Check your internet connection and region."
  | .setupError msg => msg

/-- The request-building phase of `apiRequest` (lines 517-538 up to the
`axios` call): reads the config, fails when either credential is missing
or empty, otherwise signs and assembles the `axios` argument object. -/
def apiRequestReq (hmac : Bytes → Bytes → Bytes) (sha256 : Bytes → Bytes)
    (cfg : Config) (amzDate : String) (method path : String) (body : Json)
    (params : Option (List (String × String))) : Except String HttpRequest :=
  if credsPresent cfg then
    let r := signedRequest hmac sha256 amzDate
      { method := method, path := path, body := body, region := regionOf cfg
        accessKeyId := cfg.accessKeyId.getD "", secretAccessKey := cfg.secretAccessKey.getD ""
        sessionToken := cfg.sessionToken }
    .ok { method := method, url := r.endpoint, headers := r.headers
          data := if r.bodyStr = "" then none else some r.bodyStr
          params := params }
  else .error errCredsNotConfigured

/-- `apiRequest` (lines 517-543): build the signed request, perform one
transport call, return the parsed payload on success, else the message
`handleApiError` throws. -/
def apiRequest (hmac : Bytes → Bytes → Bytes) (sha256 : Bytes → Bytes)
    (transport : HttpRequest → TransportResult) (cfg : Config) (amzDate : String)
    (method path : String) (body : Json)
    (params : Option (List (String × String))) : Except String Json :=
  match apiRequestReq hmac sha256 cfg amzDate method path body params with
  | .error e => .error e
  | .ok req =>
    match transport req with
    | .success d => .ok d
    | .failure e => .error (handleApiError e)

/-! ## The API operations (`src/index.js` lines 565-640) -/

/-- `data.field || []` — the list-extraction step of the three list
operations (an absent or falsy field yields the empty array). -/
def fieldOrEmptyArr (data : Json) (key : String) : Json :=
  match truthyField data key with
  | some v => v
  | none => Json.arr []

/-- Lines 566-568: the body of `listQuantumTasks` — `maxResults` always,
`deviceArn` when truthy, a one-element status filter when truthy. -/
def listQuantumTasksBody (deviceArn status : Option String) (maxResults : Int) : Json :=
  Json.obj ([("maxResults", Json.num maxResults)]
    ++ (if truthyStr deviceArn then [("deviceArn", Json.str (deviceArn.getD ""))] else [])
    ++ (if truthyStr status then
          [("filters", Json.arr [Json.obj [("name", Json.str "status"),
                                           ("values", Json.arr [Json.str (status.getD "")])]])]
        else []))

/-- `listQuantumTasks` (lines 565-571). -/
def listQuantumTasks (hmac : Bytes → Bytes → Bytes) (sha256 : Bytes → Bytes)
    (transport : HttpRequest → TransportResult) (cfg : Config) (amzDate : String)
    (deviceArn status : Option String) (maxResults : Int) : Except String Json :=
  (apiRequest hmac sha256 transport cfg amzDate "POST" "/quantum-tasks"
      (listQuantumTasksBody deviceArn status maxResults) none).map
    (fun data => fieldOrEmptyArr data "quantumTasks")

/-- `getQuantumTask` (lines 573-575); `enc` is the external
`encodeURIComponent` builtin. -/
def getQuantumTask (hmac : Bytes → Bytes → Bytes) (sha256 : Bytes → Bytes)
    (transport : HttpRequest → TransportResult) (cfg : Config) (amzDate : String)
    (enc : String → String) (taskId : String) : Except String Json :=
  apiRequest hmac sha256 transport cfg amzDate "GET" ("/quantum-tasks/" ++ enc taskId)
    Json.null none

/-- Lines 578-584: the body of `createQuantumTask`; the `action` argument
is either already a string or stringified. -/
def createQuantumTaskBody (deviceArn : String) (shots : Int)
    (outputS3Bucket outputS3KeyPrefix : String) (action : String ⊕ Json) : Json :=
  Json.obj [("deviceArn", Json.str deviceArn),
            ("shots", Json.num shots),
            ("outputS3Bucket", Json.str outputS3Bucket),
            ("outputS3KeyPrefix", Json.str outputS3KeyPrefix),
            ("action", Json.str (match action with
                                 | Sum.inl s => s
                                 | Sum.inr j => jsonStringify j))]

/-- `createQuantumTask` (lines 577-586). -/
def createQuantumTask (hmac : Bytes → Bytes → Bytes) (sha256 : Bytes → Bytes)
    (transport : HttpRequest → TransportResult) (cfg : Config) (amzDate : String)
    (deviceArn : String) (shots : Int) (outputS3Bucket outputS3KeyPrefix : String)
    (action : String ⊕ Json) : Except String Json :=
  apiRequest hmac sha256 transport cfg amzDate "POST" "/quantum-tasks"
    (createQuantumTaskBody deviceArn shots outputS3Bucket outputS3KeyPrefix action) none

/-- `cancelQuantumTask` (lines 588-590). -/
def cancelQuantumTask (hmac : Bytes → Bytes → Bytes) (sha256 : Bytes → Bytes)
    (transport : HttpRequest → TransportResult) (cfg : Config) (amzDate : String)
    (enc : String → String) (taskId : String) : Except String Json :=
  apiRequest hmac sha256 transport cfg amzDate "PUT"
    ("/quantum-tasks/" ++ enc taskId ++ "/cancel") Json.null none

/-- Lines 597-602: the body of `listDevices` — a `filters` key only when
at least one of the three filters is truthy. -/
def listDevicesBody (type provider status : Option String) : Json :=
  let filters :=
    (if truthyStr type then
      [Json.obj [("name", Json.str "deviceType"), ("values", Json.arr [Json.str (type.getD "")])]]
     else [])
    ++ (if truthyStr provider then
      [Json.obj [("name", Json.str "providerName"), ("values", Json.arr [Json.str (provider.getD "")])]]
     else [])
    ++ (if truthyStr status then
      [Json.obj [("name", Json.str "deviceStatus"), ("values", Json.arr [Json.str (status.getD "")])]]
     else [])
  Json.obj (if filters.length ≠ 0 then [("filters", Json.arr filters)] else [])

/-- `listDevices` (lines 596-605). -/
def listDevices (hmac : Bytes → Bytes → Bytes) (sha256 : Bytes → Bytes)
    (transport : HttpRequest → TransportResult) (cfg : Config) (amzDate : String)
    (type provider status : Option String) : Except String Json :=
  (apiRequest hmac sha256 transport cfg amzDate "POST" "/devices"
      (listDevicesBody type provider status) none).map
    (fun data => fieldOrEmptyArr data "devices")

/-- `getDevice` (lines 607-609). -/
def getDevice (hmac : Bytes → Bytes → Bytes) (sha256 : Bytes → Bytes)
    (transport : HttpRequest → TransportResult) (cfg : Config) (amzDate : String)
    (enc : String → String) (deviceArn : String) : Except String Json :=
  apiRequest hmac sha256 transport cfg amzDate "GET" ("/devices/" ++ enc deviceArn)
    Json.null none

/-- Lines 616-623: the body of `createJob`; the five mandatory fields in
insertion order, plus `checkpointConfig` when present. -/
def createJobBody (algorithmSpecification instanceConfig : Json) (jobName : String)
    (outputDataConfig : Json) (roleArn : String) (checkpointConfig : Option Json) : Json :=
  Json.obj ([("algorithmSpecification", algorithmSpecification),
             ("instanceConfig", instanceConfig),
             ("jobName", Json.str jobName),
             ("outputDataConfig", outputDataConfig),
             ("roleArn", Json.str roleArn)]
    ++ (match checkpointConfig with
        | some c => if jsTruthy c then [("checkpointConfig", c)] else []
        | none => []))

/-- `createJob` (lines 615-625). -/
def createJob (hmac : Bytes → Bytes → Bytes) (sha256 : Bytes → Bytes)
    (transport : HttpRequest → TransportResult) (cfg : Config) (amzDate : String)
    (algorithmSpecification instanceConfig : Json) (jobName : String)
    (outputDataConfig : Json) (roleArn : String)
    (checkpointConfig : Option Json) : Except String Json :=
  apiRequest hmac sha256 transport cfg amzDate "POST" "/jobs"
    (createJobBody algorithmSpecification instanceConfig jobName outputDataConfig
      roleArn checkpointConfig) none

/-- `getJob` (lines 627-629). -/
def getJob (hmac : Bytes → Bytes → Bytes) (sha256 : Bytes → Bytes)
    (transport : HttpRequest → TransportResult) (cfg : Config) (amzDate : String)
    (enc : String → String) (jobName : String) : Except String Json :=
  apiRequest hmac sha256 transport cfg amzDate "GET" ("/jobs/" ++ enc jobName) Json.null none

/-- Lines 632-633: the query parameters of `listJobs` — `maxResults`
always, `filters=state:<state>` when the state filter is truthy (values
rendered as the strings `axios` serializes). -/
def listJobsParams (maxResults : Int) (state : Option String) : List (String × String) :=
  [("maxResults", toString maxResults)]
    ++ (if truthyStr state then [("filters", "state:" ++ state.getD "")] else [])

/-- `listJobs` (lines 631-636): a GET with a `null` body and query
parameters. -/
def listJobs (hmac : Bytes → Bytes → Bytes) (sha256 : Bytes → Bytes)
    (transport : HttpRequest → TransportResult) (cfg : Config) (amzDate : String)
    (maxResults : Int) (state : Option String) : Except String Json :=
  (apiRequest hmac sha256 transport cfg amzDate "GET" "/jobs" Json.null
      (some (listJobsParams maxResults state))).map
    (fun data => fieldOrEmptyArr data "jobs")

/-- `cancelJob` (lines 638-640). -/
def cancelJob (hmac : Bytes → Bytes → Bytes) (sha256 : Bytes → Bytes)
    (transport : HttpRequest → TransportResult) (cfg : Config) (amzDate : String)
    (enc : String → String) (jobName : String) : Except String Json :=
  apiRequest hmac sha256 transport cfg amzDate "PUT" ("/jobs/" ++ enc jobName ++ "/cancel")
    Json.null none

end AwsBraket


namespace AwsBraket

/-! ## Supporting lemmas -/

/-- The hex alphabet emitted by `hexOfBytes`. -/
def hexAlphabet : List Char := "0123456789abcdef".data

/-- Every character of a hex digest is a lowercase hex digit. -/
theorem hexOfBytes_lowercase (bs : Bytes) :
    ∀ c ∈ (hexOfBytes bs).data, c ∈ hexAlphabet := by
  induction bs with
  | nil => intro c hc; exact absurd hc (by simp [hexOfBytes])
  | cons b rest ih =>
    intro c hc
    rw [hexOfBytes, String.data_append] at hc
    rcases List.mem_append.1 hc with h | h
    · have key : ∀ n, n < 16 → hexDigit n ∈ hexAlphabet := by decide
      have h1 : b / 16 % 16 < 16 := Nat.mod_lt _ (by decide)
      have h2 : b % 16 < 16 := Nat.mod_lt _ (by decide)
      simp only [byteToHex, List.mem_cons] at h
      rcases h with h | h | h
      · exact h ▸ key _ h1
      · exact h ▸ key _ h2
      · exact absurd h (List.not_mem_nil c)
    · exact ih c h

/-- The serialization of a JSON object is never the empty string
(it always opens with a brace). -/
theorem jsonStringify_obj_ne_empty (kvs : List (String × Json)) :
    jsonStringify (Json.obj kvs) ≠ "" := by
  intro hEq
  have hd := congrArg String.data hEq
  rw [jsonStringify] at hd
  rw [String.data_append, String.data_append] at hd
  simp at hd

/-- A JSON object is truthy, so line 483 serializes it. -/
theorem sentBodyStr_obj (kvs : List (String × Json)) :
    sentBodyStr (Json.obj kvs) = jsonStringify (Json.obj kvs) := rfl

/-! ## Claim C1: the authorization header and the signature chain -/

/-- **C1.** For every request signed by `signedRequest`, the
`authorization` header equals the string
`AWS4-HMAC-SHA256 Credential=` + accessKeyId + `/` + dateStamp + `/` +
region + `/braket/aws4_request, SignedHeaders=` + signedHeaders +
`, Signature=` + signature, where the signature is the lowercase hex
HMAC-SHA256 of the string-to-sign under the key obtained by the four
chained HMAC-SHA256 derivations starting from `AWS4` + secretAccessKey,
keyed successively over dateStamp, then region, then `braket`, then the
literal `aws4_request`, each HMAC output used as the key of the next
(the abstract `hmac` stands for HMAC-SHA256; `hexOfBytes` is lowercase
hex by `hexOfBytes_lowercase`, restated here as the second conjunct). -/
theorem C1_authorization_header (hmac : Bytes → Bytes → Bytes) (sha256 : Bytes → Bytes)
    (amzDate : String) (p : SignParams) :
    lookupD (signedRequest hmac sha256 amzDate p).headers "authorization"
      = "AWS4-HMAC-SHA256 Credential=" ++ p.accessKeyId ++ "/" ++ amzDate.take 8 ++ "/"
        ++ p.region ++ "/braket/aws4_request, SignedHeaders="
        ++ signedHeadersOf (requestHeaders ("braket." ++ p.region ++ ".amazonaws.com") amzDate
              (contentHashOf sha256 (sentBodyStr p.body)) p.sessionToken)
        ++ ", Signature="
        ++ hexOfBytes (hmac
            (hmac (hmac (hmac (hmac (strBytes ("AWS4" ++ p.secretAccessKey))
                  (strBytes (amzDate.take 8)))
                (strBytes p.region)) (strBytes "braket")) (strBytes "aws4_request"))
            (strBytes (stringToSignOf amzDate
              (credentialScopeOf (amzDate.take 8) p.region)
              (hexOfBytes (sha256 (strBytes (canonicalRequestOf p.method p.path
                (canonicalHeadersOf (requestHeaders ("braket." ++ p.region ++ ".amazonaws.com") amzDate
                  (contentHashOf sha256 (sentBodyStr p.body)) p.sessionToken))
                (signedHeadersOf (requestHeaders ("braket." ++ p.region ++ ".amazonaws.com") amzDate
                  (contentHashOf sha256 (sentBodyStr p.body)) p.sessionToken))
                (contentHashOf sha256 (sentBodyStr p.body)))))))))
    ∧ ∀ keyBytes msgBytes c, c ∈ (hexOfBytes (hmac keyBytes msgBytes)).data → c ∈ hexAlphabet := by
  refine ⟨?_, fun keyBytes msgBytes c hc => hexOfBytes_lowercase _ c hc⟩
  rcases p with ⟨method, path, body, region, accessKeyId, secretAccessKey, sessionToken⟩
  rcases sessionToken with _ | tok
  · simp only [signedRequest, getSignatureKey, sign, credentialScopeOf, SERVICE,
      requestHeaders, truthyStr, String.append_assoc]
    rfl
  · by_cases htok : tok = ""
    · subst htok
      simp only [signedRequest, getSignatureKey, sign, credentialScopeOf, SERVICE,
        requestHeaders, truthyStr, String.append_assoc]
      rfl
    · simp only [signedRequest, getSignatureKey, sign, credentialScopeOf, SERVICE,
        requestHeaders, truthyStr, String.append_assoc, bne_iff_ne, ne_eq, htok,
        not_false_eq_true, if_true]
      rfl

/-! ## Claim C2: canonical request shape; query parameters unsigned -/

/-- **C2.** The canonical request hashed into the string-to-sign is
exactly METHOD, PATH, an empty canonical query-string line, the
canonical headers block, the signed-headers list, and the content hash,
joined by newlines (first conjunct); consequently query parameters are
never part of the signed request: the url, headers (authorization
included) and body that `apiRequest` builds are identical for any two
query-parameter values (second conjunct) — in particular for the
`maxResults`/`filters` parameters `listJobs` hands to the transport
alongside a `null` body (third conjunct). -/
theorem C2_canonical_request_excludes_query (hmac : Bytes → Bytes → Bytes)
    (sha256 : Bytes → Bytes) (cfg : Config) (amzDate method path : String) (body : Json) :
    (∀ (hs : List (String × String)) (contentHash : String),
      canonicalRequestOf method path (canonicalHeadersOf hs) (signedHeadersOf hs) contentHash
        = method ++ "\n" ++ path ++ "\n" ++ "\n" ++ canonicalHeadersOf hs ++ "\n"
          ++ signedHeadersOf hs ++ "\n" ++ contentHash)
    ∧ (∀ params₁ params₂,
        (apiRequestReq hmac sha256 cfg amzDate method path body params₁).map
            (fun r => (r.url, r.headers, r.data))
          = (apiRequestReq hmac sha256 cfg amzDate method path body params₂).map
            (fun r => (r.url, r.headers, r.data)))
    ∧ (∀ transport maxResults state,
        listJobs hmac sha256 transport cfg amzDate maxResults state
          = (apiRequest hmac sha256 transport cfg amzDate "GET" "/jobs" Json.null
              (some (listJobsParams maxResults state))).map
              (fun data => fieldOrEmptyArr data "jobs")) := by
  refine ⟨?_, ?_, fun transport maxResults state => rfl⟩
  · intro hs contentHash
    simp only [canonicalRequestOf, joinSep, String.append_assoc]
    rfl
  · intro params₁ params₂
    simp only [apiRequestReq]
    by_cases h : credsPresent cfg
    · simp only [h, if_true]
      rfl
    · simp only [h, Bool.false_eq_true, if_false]

/-! ## Claim C3: the exact header set and the signed-headers list -/

/-- **C3.** The header map built by the Signer contains exactly
`content-type: application/json`, `host: braket.<region>.amazonaws.com`,
`x-amz-date`, `x-amz-content-sha256`, plus `x-amz-security-token` if and
only if a (truthy) session token is present — when the token is absent
the header is omitted entirely, never emitted empty — and `signedHeaders`
is the lexicographically sorted, semicolon-joined list of exactly those
header names; the signer's returned header map is this set plus the
`authorization` header. -/
theorem C3_header_set_and_signed_headers (hmac : Bytes → Bytes → Bytes)
    (sha256 : Bytes → Bytes) (amzDate : String) (p : SignParams) :
    (requestHeaders ("braket." ++ p.region ++ ".amazonaws.com") amzDate
        (contentHashOf sha256 (sentBodyStr p.body)) p.sessionToken).map Prod.fst
        = ["content-type", "host", "x-amz-date", "x-amz-content-sha256"]
          ++ (if truthyStr p.sessionToken then ["x-amz-security-token"] else [])
    ∧ lookupD (requestHeaders ("braket." ++ p.region ++ ".amazonaws.com") amzDate
        (contentHashOf sha256 (sentBodyStr p.body)) p.sessionToken) "content-type"
        = "application/json"
    ∧ lookupD (requestHeaders ("braket." ++ p.region ++ ".amazonaws.com") amzDate
        (contentHashOf sha256 (sentBodyStr p.body)) p.sessionToken) "host"
        = "braket." ++ p.region ++ ".amazonaws.com"
    ∧ lookupD (requestHeaders ("braket." ++ p.region ++ ".amazonaws.com") amzDate
        (contentHashOf sha256 (sentBodyStr p.body)) p.sessionToken) "x-amz-date"
        = amzDate
    ∧ lookupD (requestHeaders ("braket." ++ p.region ++ ".amazonaws.com") amzDate
        (contentHashOf sha256 (sentBodyStr p.body)) p.sessionToken) "x-amz-content-sha256"
        = contentHashOf sha256 (sentBodyStr p.body)
    ∧ (("x-amz-security-token" ∈ (requestHeaders ("braket." ++ p.region ++ ".amazonaws.com")
          amzDate (contentHashOf sha256 (sentBodyStr p.body)) p.sessionToken).map Prod.fst)
        ↔ truthyStr p.sessionToken = true)
    ∧ lookupD (requestHeaders ("braket." ++ p.region ++ ".amazonaws.com") amzDate
        (contentHashOf sha256 (sentBodyStr p.body)) p.sessionToken) "x-amz-security-token"
        = (if truthyStr p.sessionToken then p.sessionToken.getD "" else "")
    ∧ signedHeadersOf (requestHeaders ("braket." ++ p.region ++ ".amazonaws.com") amzDate
        (contentHashOf sha256 (sentBodyStr p.body)) p.sessionToken)
        = (if truthyStr p.sessionToken then
            "content-type;host;x-amz-content-sha256;x-amz-date;x-amz-security-token"
           else "content-type;host;x-amz-content-sha256;x-amz-date")
    ∧ sortStrings ((requestHeaders ("braket." ++ p.region ++ ".amazonaws.com") amzDate
        (contentHashOf sha256 (sentBodyStr p.body)) p.sessionToken).map Prod.fst)
        = (if truthyStr p.sessionToken then
            ["content-type", "host", "x-amz-content-sha256", "x-amz-date", "x-amz-security-token"]
           else ["content-type", "host", "x-amz-content-sha256", "x-amz-date"])
    ∧ List.Chain' (fun a b => jsStrLt a b = true)
        (sortStrings ((requestHeaders ("braket." ++ p.region ++ ".amazonaws.com") amzDate
          (contentHashOf sha256 (sentBodyStr p.body)) p.sessionToken).map Prod.fst))
    ∧ ∃ auth, (signedRequest hmac sha256 amzDate p).headers
        = requestHeaders ("braket." ++ p.region ++ ".amazonaws.com") amzDate
            (contentHashOf sha256 (sentBodyStr p.body)) p.sessionToken
          ++ [("authorization", auth)] := by
  rcases hp : p.sessionToken with _ | tok
  · exact ⟨rfl, rfl, rfl, rfl, rfl, by simp [requestHeaders, truthyStr],
      rfl, rfl, rfl,
      (List.Chain.cons rfl (List.Chain.cons rfl (List.Chain.cons rfl List.Chain.nil)) :
        List.Chain (fun a b => jsStrLt a b = true) "content-type"
          ["host", "x-amz-content-sha256", "x-amz-date"]),
      ⟨_, by rw [signedRequest, hp]⟩⟩
  · by_cases htok : tok = ""
    · subst htok
      exact ⟨rfl, rfl, rfl, rfl, rfl, by simp [requestHeaders, truthyStr],
        rfl, rfl, rfl,
        (List.Chain.cons rfl (List.Chain.cons rfl (List.Chain.cons rfl List.Chain.nil)) :
          List.Chain (fun a b => jsStrLt a b = true) "content-type"
          ["host", "x-amz-content-sha256", "x-amz-date"]),
        ⟨_, by rw [signedRequest, hp]⟩⟩
    · have ht : truthyStr (some tok) = true := by simp [truthyStr, htok]
      refine ⟨?_, ?_, ?_, ?_, ?_, ?_, ?_, ?_, ?_, ?_, ⟨_, by rw [signedRequest, hp]⟩⟩
      all_goals simp only [requestHeaders, ht, if_true]
      · rfl
      · rfl
      · rfl
      · rfl
      · rfl
      · simp
      · rfl
      · rfl
      · rfl
      · exact (List.Chain.cons rfl (List.Chain.cons rfl (List.Chain.cons rfl
          (List.Chain.cons rfl List.Chain.nil))) :
        List.Chain (fun a b => jsStrLt a b = true) "content-type"
          ["host", "x-amz-content-sha256", "x-amz-date", "x-amz-security-token"])

/-! ## Claim C4: missing credentials fail before signing and transport -/

/-- **C4.** For every authenticated operation, if the access key id or the
secret access key is missing from the config store, the operation fails
with the credentials-not-configured precondition error. The conclusion
holds for *every* choice of `transport`, `hmac` and `sha256` and never
mentions them on the right-hand side, which is the shallow-embedding
reading of "zero transport calls occur and the Signer is never invoked":
the result is one and the same error however the transport and the
crypto primitives behave. -/
theorem C4_missing_credentials_fail_fast (hmac : Bytes → Bytes → Bytes)
    (sha256 : Bytes → Bytes) (transport : HttpRequest → TransportResult) (cfg : Config)
    (amzDate method path : String) (body : Json) (params : Option (List (String × String)))
    (enc : String → String) (arn jobName a1 a2 : String) (shots mr : Int)
    (act : String ⊕ Json) (alg ic odc : Json) (ckpt : Option Json)
    (dev st ty pr dst state : Option String)
    (h : cfg.accessKeyId = none ∨ cfg.secretAccessKey = none) :
    apiRequest hmac sha256 transport cfg amzDate method path body params
        = .error errCredsNotConfigured
    ∧ listQuantumTasks hmac sha256 transport cfg amzDate dev st mr
        = .error errCredsNotConfigured
    ∧ getQuantumTask hmac sha256 transport cfg amzDate enc arn
        = .error errCredsNotConfigured
    ∧ createQuantumTask hmac sha256 transport cfg amzDate arn shots a1 a2 act
        = .error errCredsNotConfigured
    ∧ cancelQuantumTask hmac sha256 transport cfg amzDate enc arn
        = .error errCredsNotConfigured
    ∧ listDevices hmac sha256 transport cfg amzDate ty pr dst
        = .error errCredsNotConfigured
    ∧ getDevice hmac sha256 transport cfg amzDate enc arn
        = .error errCredsNotConfigured
    ∧ createJob hmac sha256 transport cfg amzDate alg ic jobName odc arn ckpt
        = .error errCredsNotConfigured
    ∧ getJob hmac sha256 transport cfg amzDate enc jobName
        = .error errCredsNotConfigured
    ∧ listJobs hmac sha256 transport cfg amzDate mr state
        = .error errCredsNotConfigured
    ∧ cancelJob hmac sha256 transport cfg amzDate enc jobName
        = .error errCredsNotConfigured := by
  have hcp : credsPresent cfg = false := by
    rcases h with h | h <;> simp [credsPresent, truthyStr, h]
  have hreq : ∀ m pth b prm, apiRequest hmac sha256 transport cfg amzDate m pth b prm
      = .error errCredsNotConfigured := by
    intro m pth b prm
    simp [apiRequest, apiRequestReq, hcp]
  exact ⟨hreq _ _ _ _,
    by simp [listQuantumTasks, hreq, Except.map],
    hreq _ _ _ _, hreq _ _ _ _, hreq _ _ _ _,
    by simp [listDevices, hreq, Except.map],
    hreq _ _ _ _, hreq _ _ _ _, hreq _ _ _ _,
    by simp [listJobs, hreq, Except.map],
    hreq _ _ _ _⟩

/-- Fixtures for witnesses: a trivial HMAC primitive. -/
def hmac0 : Bytes → Bytes → Bytes := fun _ _ => []

/-- Fixtures for witnesses: a trivial SHA-256 primitive. -/
def sha0 : Bytes → Bytes := fun _ => []

/-- Fixtures for witnesses: a config with credentials but no region. -/
def cfg0 : Config :=
  { region := none, accessKeyId := some "AKIA", secretAccessKey := some "SECRET",
    sessionToken := none }

/-- Fixtures for witnesses: a config whose access key id is missing. -/
def cfgNoKey : Config :=
  { region := some "us-west-2", accessKeyId := none, secretAccessKey := some "SECRET",
    sessionToken := none }

/-- Fixtures for witnesses: a transport answering every request with an
empty-object 2xx payload. -/
def transport0 : HttpRequest → TransportResult := fun _ => .success (Json.obj [])

/-- Witness for C4: with the access key id absent, a concrete call fails
with the precondition error. -/
theorem C4_missing_credentials_fail_fast_witness :
    apiRequest hmac0 sha0 transport0 cfgNoKey "20250101T000000Z" "GET" "/jobs" Json.null none
      = .error errCredsNotConfigured :=
  (C4_missing_credentials_fail_fast hmac0 sha0 transport0 cfgNoKey "20250101T000000Z"
    "GET" "/jobs" Json.null none id "arn" "job" "b" "p" 1 1 (Sum.inl "a")
    Json.null Json.null Json.null none none none none none none none (Or.inl rfl)).1

/-! ## Claim C5: HTTP error classification -/

/-- **C5, counterexample.** The claim says a generic (non-401/403/404/429)
error message contains the response's `message` field if present, else
the serialized response body. For status 500 with body
`\x7b"Message":"boom","requestId":"0000000000000000"\x7d` — no lowercase
`message` field — the code uses the capitalized `Message` fallback and
throws `API Error (500): boom`, which does not contain the serialized
response body (it is shorter than that serialization). -/
theorem C5_counterexample :
    handleApiError (.httpError 500
        (Json.obj [("Message", Json.str "boom"), ("requestId", Json.str "0000000000000000")]))
        = "API Error (500): boom"
    ∧ ¬ List.IsInfix
        (jsonStringify (Json.obj [("Message", Json.str "boom"),
          ("requestId", Json.str "0000000000000000")])).data
        ("API Error (500): boom").data := by
  constructor
  · rfl
  · intro hinf
    have hlen := hinf.length_le
    revert hlen
    decide

/-- **C5, amended.** `handleApiError` classifies by status: 401 and 403
throw "Authentication failed...", 404 "Resource not found.", 429 "Rate
limit exceeded...", and any other status a generic message containing the
status code, followed by the response's truthy `message` field if
present, else its truthy `Message` field if present, else the serialized
response body (`apiErrMessage`); no response at all throws the transport
message, and any other error propagates unchanged. -/
theorem C5_error_classification_amended (status : Nat) (data : Json) (e : String) :
    handleApiError (.httpError status data)
        = (if status = 401 ∨ status = 403 then "Authentication failed. Check your AWS credentials."
           else if status = 404 then "Resource not found."
           else if status = 429 then "Rate limit exceeded. Please wait before retrying."
           else "API Error (" ++ toString status ++ "): " ++ apiErrMessage data)
    ∧ handleApiError .noResponse
        = "No response from AWS Braket API. Check your internet connection and region."
    ∧ handleApiError (.setupError e) = e
    ∧ (¬ (status = 401 ∨ status = 403 ∨ status = 404 ∨ status = 429) →
        handleApiError (.httpError status data)
            = "API Error (" ++ toString status ++ "): " ++ apiErrMessage data
        ∧ List.IsInfix (toString status).data
            (handleApiError (.httpError status data)).data) := by
  refine ⟨rfl, rfl, rfl, fun hne => ?_⟩
  have h1 : ¬ (status = 401 ∨ status = 403) := fun h => hne (h.elim Or.inl (Or.inr ∘ Or.inl))
  have h4 : status ≠ 404 := fun h => hne (Or.inr (Or.inr (Or.inl h)))
  have h9 : status ≠ 429 := fun h => hne (Or.inr (Or.inr (Or.inr h)))
  have heq : handleApiError (.httpError status data)
      = "API Error (" ++ toString status ++ "): " ++ apiErrMessage data := by
    simp [handleApiError, h1, h4, h9]
  refine ⟨heq, ?_⟩
  rw [heq]
  refine ⟨"API Error (".data, ("): " ++ apiErrMessage data).data, ?_⟩
  simp [String.data_append, List.append_assoc]

/-- Witness for the amended C5: the generic branch at status 500. -/
theorem C5_error_classification_amended_witness :
    handleApiError (.httpError 500 (Json.obj [("message", Json.str "oops")]))
        = "API Error (500): oops"
    ∧ List.IsInfix ("500").data
        (handleApiError (.httpError 500 (Json.obj [("message", Json.str "oops")]))).data := by
  have h := (C5_error_classification_amended 500 (Json.obj [("message", Json.str "oops")]) "").2.2.2
    (by decide)
  exact ⟨h.1.trans (by rfl), h.2⟩

/-! ## Claim C6: what operations return on a 2xx response -/

/-- **C6, counterexample.** The claim says every operation returns the
parsed response payload unmodified on a 2xx response. `listQuantumTasks`
does not: for the payload `\x7b"quantumTasks":["t1"]\x7d` it returns the
extracted `quantumTasks` array, which differs from the payload. -/
theorem C6_counterexample :
    listQuantumTasks hmac0 sha0
        (fun _ => .success (Json.obj [("quantumTasks", Json.arr [Json.str "t1"])]))
        cfg0 "20250101T000000Z" none none 10
        = .ok (Json.arr [Json.str "t1"])
    ∧ Json.arr [Json.str "t1"] ≠ Json.obj [("quantumTasks", Json.arr [Json.str "t1"])] := by
  exact ⟨rfl, fun h => Json.noConfusion h⟩

/-- **C6, amended.** On a successful (2xx) HTTP response, `apiRequest`
and the get/create/cancel operations return the parsed payload
unmodified; the three list operations instead return the payload's
`quantumTasks`/`devices`/`jobs` field when that field is present and
truthy, and the empty array otherwise. -/
theorem C6_success_payload_amended (hmac : Bytes → Bytes → Bytes) (sha256 : Bytes → Bytes)
    (cfg : Config) (amzDate : String) (payload : Json) (enc : String → String)
    (arn jobName a1 a2 : String) (shots mr : Int) (act : String ⊕ Json)
    (alg ic odc : Json) (ckpt : Option Json)
    (dev st ty pr dst state : Option String) (method path : String) (body : Json)
    (params : Option (List (String × String)))
    (h : credsPresent cfg = true) :
    apiRequest hmac sha256 (fun _ => .success payload) cfg amzDate method path body params
        = .ok payload
    ∧ getQuantumTask hmac sha256 (fun _ => .success payload) cfg amzDate enc arn
        = .ok payload
    ∧ createQuantumTask hmac sha256 (fun _ => .success payload) cfg amzDate arn shots a1 a2 act
        = .ok payload
    ∧ cancelQuantumTask hmac sha256 (fun _ => .success payload) cfg amzDate enc arn
        = .ok payload
    ∧ getDevice hmac sha256 (fun _ => .success payload) cfg amzDate enc arn
        = .ok payload
    ∧ createJob hmac sha256 (fun _ => .success payload) cfg amzDate alg ic jobName odc arn ckpt
        = .ok payload
    ∧ getJob hmac sha256 (fun _ => .success payload) cfg amzDate enc jobName
        = .ok payload
    ∧ cancelJob hmac sha256 (fun _ => .success payload) cfg amzDate enc jobName
        = .ok payload
    ∧ listQuantumTasks hmac sha256 (fun _ => .success payload) cfg amzDate dev st mr
        = .ok (fieldOrEmptyArr payload "quantumTasks")
    ∧ listDevices hmac sha256 (fun _ => .success payload) cfg amzDate ty pr dst
        = .ok (fieldOrEmptyArr payload "devices")
    ∧ listJobs hmac sha256 (fun _ => .success payload) cfg amzDate mr state
        = .ok (fieldOrEmptyArr payload "jobs") := by
  have hreq : ∀ m pth b prm,
      apiRequest hmac sha256 (fun _ => .success payload) cfg amzDate m pth b prm
        = .ok payload := by
    intro m pth b prm
    simp [apiRequest, apiRequestReq, h]
  exact ⟨hreq _ _ _ _, hreq _ _ _ _, hreq _ _ _ _, hreq _ _ _ _, hreq _ _ _ _,
    hreq _ _ _ _, hreq _ _ _ _, hreq _ _ _ _,
    by simp [listQuantumTasks, hreq, Except.map],
    by simp [listDevices, hreq, Except.map],
    by simp [listJobs, hreq, Except.map]⟩

/-- Witness for the amended C6: a concrete get operation passes a
concrete payload through unmodified. -/
theorem C6_success_payload_amended_witness :
    getQuantumTask hmac0 sha0 (fun _ => .success (Json.str "payload")) cfg0
        "20250101T000000Z" id "task-arn" = .ok (Json.str "payload") :=
  (C6_success_payload_amended hmac0 sha0 cfg0 "20250101T000000Z" (Json.str "payload") id
    "task-arn" "job" "b" "p" 1 1 (Sum.inl "a") Json.null Json.null Json.null none
    none none none none none none "GET" "/x" Json.null none rfl).2.1

/-! ## Claim C7: the exact serialized body of a filtered task listing -/

/-- **C7.** For a list-tasks call with status filter `COMPLETED` and
maxResults 10 (and no device ARN), the serialized body string sent and
hashed is exactly
`\x7b"maxResults":10,"filters":[\x7b"name":"status","values":["COMPLETED"]\x7d]\x7d`:
it is the serialization of the constructed body, it is the string the
content hash is computed over, and it is the `data` handed to the
transport. -/
theorem C7_completed_tasks_body (hmac : Bytes → Bytes → Bytes) (sha256 : Bytes → Bytes)
    (cfg : Config) (amzDate : String) (h : credsPresent cfg = true) :
    jsonStringify (listQuantumTasksBody none (some "COMPLETED") 10)
      = "\x7b\"maxResults\":10,\"filters\":[\x7b\"name\":\"status\",\"values\":[\"COMPLETED\"]\x7d]\x7d"
    ∧ sentBodyStr (listQuantumTasksBody none (some "COMPLETED") 10)
      = "\x7b\"maxResults\":10,\"filters\":[\x7b\"name\":\"status\",\"values\":[\"COMPLETED\"]\x7d]\x7d"
    ∧ ∃ req, apiRequestReq hmac sha256 cfg amzDate "POST" "/quantum-tasks"
          (listQuantumTasksBody none (some "COMPLETED") 10) none = .ok req
        ∧ req.data = some "\x7b\"maxResults\":10,\"filters\":[\x7b\"name\":\"status\",\"values\":[\"COMPLETED\"]\x7d]\x7d"
        ∧ lookupD req.headers "x-amz-content-sha256"
            = contentHashOf sha256 "\x7b\"maxResults\":10,\"filters\":[\x7b\"name\":\"status\",\"values\":[\"COMPLETED\"]\x7d]\x7d" := by
  refine ⟨rfl, rfl, ?_⟩
  simp only [apiRequestReq, h, if_true]
  exact ⟨_, rfl, rfl, rfl⟩

/-- Witness for C7 under the concrete credentialed config. -/
theorem C7_completed_tasks_body_witness :
    jsonStringify (listQuantumTasksBody none (some "COMPLETED") 10)
      = "\x7b\"maxResults\":10,\"filters\":[\x7b\"name\":\"status\",\"values\":[\"COMPLETED\"]\x7d]\x7d" :=
  (C7_completed_tasks_body hmac0 sha0 cfg0 "20250101T000000Z" rfl).1

/-! ## Claim C8: empty bodies hash the empty string, present bodies their JSON -/

/-- **C8.** For every request whose body argument is absent (`null`), the
string hashed into `x-amz-content-sha256` is the empty string — not
`\x7b\x7d` and not `"null"` — and nothing is handed to the transport as data;
for every present body (every caller-supplied body is a JSON object),
the hashed string is its JSON serialization and that exact string is the
`data` handed to the transport. -/
theorem C8_body_hash (hmac : Bytes → Bytes → Bytes) (sha256 : Bytes → Bytes)
    (cfg : Config) (amzDate method path : String)
    (params : Option (List (String × String))) (kvs : List (String × Json))
    (h : credsPresent cfg = true) :
    sentBodyStr Json.null = ""
    ∧ ("" : String) ≠ "\x7b\x7d"
    ∧ ("" : String) ≠ "null"
    ∧ (∃ req, apiRequestReq hmac sha256 cfg amzDate method path Json.null params = .ok req
        ∧ req.data = none
        ∧ lookupD req.headers "x-amz-content-sha256" = contentHashOf sha256 "")
    ∧ sentBodyStr (Json.obj kvs) = jsonStringify (Json.obj kvs)
    ∧ (∃ req, apiRequestReq hmac sha256 cfg amzDate method path (Json.obj kvs) params = .ok req
        ∧ req.data = some (jsonStringify (Json.obj kvs))
        ∧ lookupD req.headers "x-amz-content-sha256"
            = contentHashOf sha256 (jsonStringify (Json.obj kvs))) := by
  refine ⟨rfl, by decide, by decide, ?_, rfl, ?_⟩
  · simp only [apiRequestReq, h, if_true]
    exact ⟨_, rfl, rfl, rfl⟩
  · simp only [apiRequestReq, h, if_true]
    refine ⟨_, rfl, ?_, rfl⟩
    have hne : (signedRequest hmac sha256 amzDate
        { method := method, path := path, body := Json.obj kvs, region := regionOf cfg,
          accessKeyId := cfg.accessKeyId.getD "", secretAccessKey := cfg.secretAccessKey.getD "",
          sessionToken := cfg.sessionToken }).bodyStr ≠ "" :=
      jsonStringify_obj_ne_empty kvs
    dsimp only
    rw [if_neg hne]
    rfl

/-- Witness for C8 under the concrete credentialed config. -/
theorem C8_body_hash_witness :
    ∃ req, apiRequestReq hmac0 sha0 cfg0 "20250101T000000Z" "PUT" "/jobs/j/cancel"
        Json.null none = .ok req
      ∧ req.data = none
      ∧ lookupD req.headers "x-amz-content-sha256" = contentHashOf sha0 "" :=
  (C8_body_hash hmac0 sha0 cfg0 "20250101T000000Z" "PUT" "/jobs/j/cancel" none [] rfl).2.2.2.1

/-! ## Claim C9: the region defaults to us-east-1 -/

/-- **C9.** For every authenticated operation, if no region is set in the
config store, the region resolved on line 518 is `us-east-1`, and the
whole request pipeline — endpoint host, credential scope and signing-key
derivation included — behaves exactly as if the config carried
`region := "us-east-1"`. -/
theorem C9_region_default (hmac : Bytes → Bytes → Bytes) (sha256 : Bytes → Bytes)
    (transport : HttpRequest → TransportResult) (cfg : Config)
    (amzDate method path : String) (body : Json)
    (params : Option (List (String × String)))
    (h : cfg.region = none) :
    regionOf cfg = "us-east-1"
    ∧ apiRequestReq hmac sha256 cfg amzDate method path body params
        = apiRequestReq hmac sha256 { cfg with region := some "us-east-1" }
            amzDate method path body params
    ∧ apiRequest hmac sha256 transport cfg amzDate method path body params
        = apiRequest hmac sha256 transport { cfg with region := some "us-east-1" }
            amzDate method path body params := by
  have hr : regionOf cfg = "us-east-1" := by simp [regionOf, h]
  have hr2 : regionOf { cfg with region := some "us-east-1" } = "us-east-1" := by
    simp [regionOf]
  have hreq : apiRequestReq hmac sha256 cfg amzDate method path body params
      = apiRequestReq hmac sha256 { cfg with region := some "us-east-1" }
          amzDate method path body params := by
    simp only [apiRequestReq, credsPresent, hr, hr2]
  exact ⟨hr, hreq, by simp only [apiRequest, hreq]⟩

/-- Witness for C9: the region-less config resolves to `us-east-1`. -/
theorem C9_region_default_witness : regionOf cfg0 = "us-east-1" :=
  (C9_region_default hmac0 sha0 transport0 cfg0 "20250101T000000Z" "GET" "/jobs"
    Json.null none rfl).1

/-! ## Claim C10: the empty device listing sends and hashes a two-character body -/

/-- **C10.** A list-devices call with no filter options builds the empty
JSON object, whose serialization — the two-character string `\x7b\x7d`, not
the empty string — is both hashed and handed to the transport; and the
bodies of the POST-based list operations (tasks, devices) are objects,
so they never produce the empty-string content hash. -/
theorem C10_empty_devices_body (hmac : Bytes → Bytes → Bytes) (sha256 : Bytes → Bytes)
    (cfg : Config) (amzDate : String) (h : credsPresent cfg = true) :
    listDevicesBody none none none = Json.obj []
    ∧ jsonStringify (Json.obj []) = "\x7b\x7d"
    ∧ sentBodyStr (Json.obj []) = "\x7b\x7d"
    ∧ ("\x7b\x7d" : String) ≠ ""
    ∧ (∃ req, apiRequestReq hmac sha256 cfg amzDate "POST" "/devices"
          (listDevicesBody none none none) none = .ok req
        ∧ req.data = some "\x7b\x7d"
        ∧ lookupD req.headers "x-amz-content-sha256" = contentHashOf sha256 "\x7b\x7d")
    ∧ (∀ dev st mr, sentBodyStr (listQuantumTasksBody dev st mr) ≠ "")
    ∧ (∀ ty pr dst, sentBodyStr (listDevicesBody ty pr dst) ≠ "") := by
  refine ⟨rfl, rfl, rfl, by decide, ?_, ?_, ?_⟩
  · simp only [apiRequestReq, h, if_true]
    exact ⟨_, rfl, rfl, rfl⟩
  · intro dev st mr
    exact jsonStringify_obj_ne_empty _
  · intro ty pr dst
    exact jsonStringify_obj_ne_empty _

/-- Witness for C10 under the concrete credentialed config. -/
theorem C10_empty_devices_body_witness :
    ∃ req, apiRequestReq hmac0 sha0 cfg0 "20250101T000000Z" "POST" "/devices"
        (listDevicesBody none none none) none = .ok req
      ∧ req.data = some "\x7b\x7d"
      ∧ lookupD req.headers "x-amz-content-sha256" = contentHashOf sha0 "\x7b\x7d" :=
  (C10_empty_devices_body hmac0 sha0 cfg0 "20250101T000000Z" rfl).2.2.2.2.1

/-- Fixtures for witnesses: concrete signer parameters. -/
def signParams0 : SignParams :=
  { method := "POST", path := "/quantum-tasks", body := Json.obj [], region := "us-east-1",
    accessKeyId := "AKIA", secretAccessKey := "SECRET", sessionToken := some "TOKEN" }

/-- Witness for C1: the authorization equation at concrete inputs. -/
theorem C1_authorization_header_witness :
    lookupD (signedRequest hmac0 sha0 "20250101T000000Z" signParams0).headers "authorization"
      = "AWS4-HMAC-SHA256 Credential=" ++ signParams0.accessKeyId ++ "/"
        ++ ("20250101T000000Z").take 8 ++ "/"
        ++ signParams0.region ++ "/braket/aws4_request, SignedHeaders="
        ++ signedHeadersOf (requestHeaders ("braket." ++ signParams0.region ++ ".amazonaws.com")
              "20250101T000000Z"
              (contentHashOf sha0 (sentBodyStr signParams0.body)) signParams0.sessionToken)
        ++ ", Signature="
        ++ hexOfBytes (hmac0
            (hmac0 (hmac0 (hmac0 (hmac0 (strBytes ("AWS4" ++ signParams0.secretAccessKey))
                  (strBytes (("20250101T000000Z").take 8)))
                (strBytes signParams0.region)) (strBytes "braket")) (strBytes "aws4_request"))
            (strBytes (stringToSignOf "20250101T000000Z"
              (credentialScopeOf (("20250101T000000Z").take 8) signParams0.region)
              (hexOfBytes (sha0 (strBytes (canonicalRequestOf signParams0.method signParams0.path
                (canonicalHeadersOf (requestHeaders ("braket." ++ signParams0.region ++ ".amazonaws.com")
                  "20250101T000000Z"
                  (contentHashOf sha0 (sentBodyStr signParams0.body)) signParams0.sessionToken))
                (signedHeadersOf (requestHeaders ("braket." ++ signParams0.region ++ ".amazonaws.com")
                  "20250101T000000Z"
                  (contentHashOf sha0 (sentBodyStr signParams0.body)) signParams0.sessionToken))
                (contentHashOf sha0 (sentBodyStr signParams0.body))))))))) :=
  (C1_authorization_header hmac0 sha0 "20250101T000000Z" signParams0).1

/-- Witness for C2: query-parameter independence at concrete inputs. -/
theorem C2_canonical_request_excludes_query_witness :
    (apiRequestReq hmac0 sha0 cfg0 "20250101T000000Z" "GET" "/jobs" Json.null
        (some [("maxResults", "10")])).map (fun r => (r.url, r.headers, r.data))
      = (apiRequestReq hmac0 sha0 cfg0 "20250101T000000Z" "GET" "/jobs" Json.null none).map
          (fun r => (r.url, r.headers, r.data)) :=
  (C2_canonical_request_excludes_query hmac0 sha0 cfg0 "20250101T000000Z" "GET" "/jobs"
    Json.null).2.1 (some [("maxResults", "10")]) none

/-- Witness for C3: the signed-headers list at concrete inputs. -/
theorem C3_header_set_and_signed_headers_witness :
    signedHeadersOf (requestHeaders ("braket." ++ signParams0.region ++ ".amazonaws.com")
        "20250101T000000Z" (contentHashOf sha0 (sentBodyStr signParams0.body))
        signParams0.sessionToken)
      = (if truthyStr signParams0.sessionToken then
          "content-type;host;x-amz-content-sha256;x-amz-date;x-amz-security-token"
         else "content-type;host;x-amz-content-sha256;x-amz-date") :=
  (C3_header_set_and_signed_headers hmac0 sha0 "20250101T000000Z"
    signParams0).2.2.2.2.2.2.2.1

end AwsBraket
